import Mathlib

/-!
# Verification of the HAL / JavaScriptCoreCPP native-object export bridge

Shallow embedding of the repository's native-object export bridge and array
wrapper, translated from:

* `include/JavaScriptCoreCPP/RAII/JSNativeObjectBuilder.hpp`
  (builder, `JSNativeObjectDefinition<T>` construction, and the
  `JSNativeObject<T>` compilation constructor),
* `include/JavaScriptCoreCPP/detail/JSExportNamedFunctionPropertyCallback.hpp`
  (function-property callback construction and equality),
* `src/JSArray.cpp` (`GetLength` and the `std::vector` conversion operators).

Modelling conventions:

* Opaque engine handles (`JSContext`, `JSClass` pointers, `std::function`
  targets) are modelled as naturals that serve as identities; a nullable
  callback (`std::function`, `shared_ptr`) is an `Option Nat`, with `none`
  for `nullptr`.
* `std::unordered_set` collections held by the builder are modelled as
  `List`s; iteration order of an `unordered_set` is unspecified, so any
  property that depends on the iteration result is proved invariant under
  permutation of the list.  Sets of `JSPropertyAttribute` flags, which are
  only compared for equality, are modelled as `Finset Nat` of ordinals.
* Fallible C++ constructors (`throw`) are modelled with `Except HALError`.
* Machine integers are modelled as `Nat`/`Int` with explicit reductions
  modulo `2 ^ 32` where the code truncates a JavaScript number to a 32-bit
  integer.
-/

/-- The error kinds the bridge raises: `std::invalid_argument`
(`ThrowInvalidArgument`), `std::out_of_range` (thrown by
`std::bitset::set` for a position outside the bitset), and
`std::runtime_error` (`ThrowRuntimeError`). -/
inductive HALError where
  | invalidArgument : String → HALError
  | outOfRange : String → HALError
  | runtimeError : String → HALError
  deriving DecidableEq, Repr

/-- True exactly when a fallible computation succeeded. -/
def exceptIsOk {α : Type} : Except HALError α → Bool
  | .ok _ => true
  | .error _ => false

/-- True exactly when a fallible computation failed with
`std::invalid_argument`. -/
def exceptIsInvalidArgument {α : Type} : Except HALError α → Bool
  | .error (.invalidArgument _) => true
  | _ => false

/-- Modelled from the spec: the base class `JSPropertyCallback`
(`detail/JSPropertyCallback.hpp` is not under `src/`) carries the property
name and its set of `JSPropertyAttribute` flags; per the spec and the
derived class's doc comment its constructor fails with `InvalidArgument`
when the name is empty, and its equality compares name and attribute set.
Attribute ordinals are modelled as naturals. -/
structure JSPropertyCallback where
  name : String
  attributes : Finset Nat
  deriving DecidableEq

/-- Modelled from the spec: the `JSPropertyCallback` constructor, which
validates that the property name is non-empty. -/
def JSPropertyCallback.make (property_name : String) (attributes : Finset Nat) :
    Except HALError JSPropertyCallback :=
  if property_name.isEmpty then
    .error (.invalidArgument "JSPropertyCallback: property_name is missing")
  else
    .ok ⟨property_name, attributes⟩

/-- `JSExportNamedFunctionPropertyCallback<T>`: a named function property
with the bound invocable.  The `std::function` payload is modelled by the
identity of its target (`none` = `nullptr`). -/
structure JSExportNamedFunctionPropertyCallback where
  toJSPropertyCallback : JSPropertyCallback
  function_callback : Option Nat
  deriving DecidableEq

/-- The `JSExportNamedFunctionPropertyCallback` constructor
(`JSExportNamedFunctionPropertyCallback.hpp`, lines 96-106): the base
`JSPropertyCallback` is constructed first (validating the name), then the
body throws `std::invalid_argument` when `function_callback` is null. -/
def JSExportNamedFunctionPropertyCallback.make (function_name : String)
    (function_callback : Option Nat) (attributes : Finset Nat) :
    Except HALError JSExportNamedFunctionPropertyCallback :=
  match JSPropertyCallback.make function_name attributes with
  | .error e => .error e
  | .ok base =>
    if function_callback.isNone then
      .error (.invalidArgument
        "JSExportNamedFunctionPropertyCallback: function_callback is missing")
    else
      .ok ⟨base, function_callback⟩

/-- `operator==` on `JSExportNamedFunctionPropertyCallback`
(`JSExportNamedFunctionPropertyCallback.hpp`, lines 153-164): unequal when
exactly one side's bound callback is null, otherwise the result of the
base-class comparison (name and attribute set). -/
def JSExportNamedFunctionPropertyCallback.beq
    (lhs rhs : JSExportNamedFunctionPropertyCallback) : Bool :=
  if lhs.function_callback.isSome && !rhs.function_callback.isSome then
    false
  else if !lhs.function_callback.isSome && rhs.function_callback.isSome then
    false
  else
    lhs.toJSPropertyCallback == rhs.toJSPropertyCallback

/-- C5: constructing a function-property callback with a null invocable
fails with `InvalidArgument` in the constructor itself (the model of the
callback's own construction, independent of any definition build); with a
non-null invocable (and a valid name) construction succeeds and the
resulting object stores exactly that invocable. -/
theorem function_callback_null_invalid_argument (function_name : String)
    (attributes : Finset Nat) (cb : Nat) (h : function_name ≠ "") :
    exceptIsInvalidArgument
        (JSExportNamedFunctionPropertyCallback.make function_name none attributes) = true ∧
    JSExportNamedFunctionPropertyCallback.make function_name (some cb) attributes =
      .ok ⟨⟨function_name, attributes⟩, some cb⟩ := by
  have hne : function_name.isEmpty = false := by
    by_cases hc : function_name.isEmpty
    · exact absurd ((String.isEmpty_iff function_name).mp hc) h
    · simpa using hc
  constructor
  · simp [JSExportNamedFunctionPropertyCallback.make, JSPropertyCallback.make, hne,
      exceptIsInvalidArgument]
  · simp [JSExportNamedFunctionPropertyCallback.make, JSPropertyCallback.make, hne]

/-- Witness for C5 at the concrete name "sayHello" and invocable identity 7. -/
theorem function_callback_null_invalid_argument_witness :
    exceptIsInvalidArgument
        (JSExportNamedFunctionPropertyCallback.make "sayHello" none ∅) = true ∧
    JSExportNamedFunctionPropertyCallback.make "sayHello" (some 7) ∅ =
      .ok ⟨⟨"sayHello", ∅⟩, some 7⟩ :=
  function_callback_null_invalid_argument "sayHello" ∅ 7 (by decide)

/-- C6 counterexample: two function-property callbacks with the same name,
the same attribute set and distinct non-null bound callbacks (identities 0
and 1) compare equal under the source's `operator==`, so equality does not
take the identity of the bound callback into account. -/
theorem function_callback_equality_ignores_identity :
    JSExportNamedFunctionPropertyCallback.beq ⟨⟨"f", ∅⟩, some 0⟩ ⟨⟨"f", ∅⟩, some 1⟩ = true ∧
    (⟨⟨"f", ∅⟩, some 0⟩ : JSExportNamedFunctionPropertyCallback).function_callback ≠
      (⟨⟨"f", ∅⟩, some 1⟩ : JSExportNamedFunctionPropertyCallback).function_callback := by
  constructor
  · decide
  · decide

/-- C6 (amended): two property callbacks are equal exactly when their
names agree, their attribute sets agree, and their bound callbacks are
both null or both non-null; the identity of a non-null bound callback is
not compared. -/
theorem function_callback_equality_name_attributes_presence
    (lhs rhs : JSExportNamedFunctionPropertyCallback) :
    JSExportNamedFunctionPropertyCallback.beq lhs rhs = true ↔
      (lhs.toJSPropertyCallback.name = rhs.toJSPropertyCallback.name ∧
       lhs.toJSPropertyCallback.attributes = rhs.toJSPropertyCallback.attributes ∧
       lhs.function_callback.isSome = rhs.function_callback.isSome) := by
  obtain ⟨⟨n₁, a₁⟩, c₁⟩ := lhs
  obtain ⟨⟨n₂, a₂⟩, c₂⟩ := rhs
  cases c₁ <;> cases c₂ <;>
    simp [JSExportNamedFunctionPropertyCallback.beq, beq_iff_eq,
      JSPropertyCallback.mk.injEq]

/-- Modelled from the spec: primitive value wrappers are external
collaborators consumed as bidirectional conversion functions, so a
`JSValue` is modelled by the results of the conversions `JSArray.cpp`
applies to it: the `IsNumber` test, the numeric payload (a JavaScript
double, modelled as an integer), the boolean conversion and the string
conversion. -/
structure JSValue where
  IsNumber : Bool
  asNumber : Int
  asBool : Bool
  asString : String

/-- Truncation of a numeric payload to an unsigned 32-bit integer, the
model of `static_cast<uint32_t>` applied to a JavaScript number. -/
def uint32Cast (n : Int) : Nat := (n % (2 ^ 32 : Int)).toNat

/-- Truncation of a numeric payload to a signed 32-bit integer, the model
of `static_cast<int32_t>` applied to a JavaScript number. -/
def int32Cast (n : Int) : Int :=
  let m := n % (2 ^ 32 : Int)
  if m < 2 ^ 31 then m else m - 2 ^ 32

/-- Modelled from the spec: the `JSObject` facet that `JSArray.cpp` uses —
`HasProperty`, `GetProperty` by name, and `GetProperty` by unsigned index
(the array/object convenience wrappers are consumed as ordinary
property-get callers). -/
structure JSObject where
  HasProperty : String → Bool
  GetProperty : String → JSValue
  GetPropertyAtIndex : Nat → JSValue

/-- `JSArray::GetLength` (`src/JSArray.cpp`, lines 48-57): declared
`HAL_NOEXCEPT` and total — it returns 0 when the object has no "length"
property, 0 when "length" is not a number, and otherwise the numeric
value truncated to an unsigned 32-bit integer. -/
def JSArray.GetLength (a : JSObject) : Nat :=
  if !a.HasProperty "length" then 0
  else
    let length := a.GetProperty "length"
    if !length.IsNumber then 0
    else uint32Cast length.asNumber

/-- `JSArray::operator std::vector<JSValue>` (`src/JSArray.cpp`, lines
59-67): one `GetProperty(i)` per index `i` below `GetLength()`, in
increasing order. -/
def JSArray.toVectorJSValue (a : JSObject) : List JSValue :=
  (List.range (JSArray.GetLength a)).map (fun i => a.GetPropertyAtIndex i)

/-- `JSArray::operator std::vector<bool>` (`src/JSArray.cpp`, lines 69-77). -/
def JSArray.toVectorBool (a : JSObject) : List Bool :=
  (List.range (JSArray.GetLength a)).map (fun i => (a.GetPropertyAtIndex i).asBool)

/-- `JSArray::operator std::vector<std::string>` (`src/JSArray.cpp`, lines 79-87). -/
def JSArray.toVectorString (a : JSObject) : List String :=
  (List.range (JSArray.GetLength a)).map (fun i => (a.GetPropertyAtIndex i).asString)

/-- `JSArray::operator std::vector<double>` (`src/JSArray.cpp`, lines
89-97); the double payload is modelled as the integer `asNumber`. -/
def JSArray.toVectorDouble (a : JSObject) : List Int :=
  (List.range (JSArray.GetLength a)).map (fun i => (a.GetPropertyAtIndex i).asNumber)

/-- `JSArray::operator std::vector<int32_t>` (`src/JSArray.cpp`, lines 99-107). -/
def JSArray.toVectorInt32 (a : JSObject) : List Int :=
  (List.range (JSArray.GetLength a)).map (fun i => int32Cast (a.GetPropertyAtIndex i).asNumber)

/-- `JSArray::operator std::vector<uint32_t>` (`src/JSArray.cpp`, lines 109-117). -/
def JSArray.toVectorUInt32 (a : JSObject) : List Nat :=
  (List.range (JSArray.GetLength a)).map (fun i => uint32Cast (a.GetPropertyAtIndex i).asNumber)

/-- C9: `GetLength` is a total function (the source marks it
`HAL_NOEXCEPT`; no failure path exists in the model), returning the
numeric value of the "length" property truncated to an unsigned 32-bit
integer when that property exists and is a number, and 0 otherwise. -/
theorem GetLength_cases (a : JSObject) :
    JSArray.GetLength a =
      if a.HasProperty "length" && (a.GetProperty "length").IsNumber then
        uint32Cast (a.GetProperty "length").asNumber
      else 0 := by
  unfold JSArray.GetLength
  cases h₁ : a.HasProperty "length" <;>
    cases h₂ : (a.GetProperty "length").IsNumber <;> simp [h₁, h₂]

/-- C10: each of the six vector conversions returns a vector whose size is
`GetLength()` and whose i-th element is the corresponding conversion of
`GetProperty(i)`, for every index below `GetLength()` (the mapping over
`List.range` fixes the increasing order). -/
theorem vector_conversions_pointwise (a : JSObject) :
    ((JSArray.toVectorJSValue a).length = JSArray.GetLength a ∧
     (JSArray.toVectorBool a).length = JSArray.GetLength a ∧
     (JSArray.toVectorString a).length = JSArray.GetLength a ∧
     (JSArray.toVectorDouble a).length = JSArray.GetLength a ∧
     (JSArray.toVectorInt32 a).length = JSArray.GetLength a ∧
     (JSArray.toVectorUInt32 a).length = JSArray.GetLength a) ∧
    ∀ i, i < JSArray.GetLength a →
      ((JSArray.toVectorJSValue a)[i]? = some (a.GetPropertyAtIndex i) ∧
       (JSArray.toVectorBool a)[i]? = some (a.GetPropertyAtIndex i).asBool ∧
       (JSArray.toVectorString a)[i]? = some (a.GetPropertyAtIndex i).asString ∧
       (JSArray.toVectorDouble a)[i]? = some (a.GetPropertyAtIndex i).asNumber ∧
       (JSArray.toVectorInt32 a)[i]? = some (int32Cast (a.GetPropertyAtIndex i).asNumber) ∧
       (JSArray.toVectorUInt32 a)[i]? = some (uint32Cast (a.GetPropertyAtIndex i).asNumber)) := by
  refine ⟨⟨?_, ?_, ?_, ?_, ?_, ?_⟩, ?_⟩ <;>
    simp [JSArray.toVectorJSValue, JSArray.toVectorBool, JSArray.toVectorString,
      JSArray.toVectorDouble, JSArray.toVectorInt32, JSArray.toVectorUInt32]
  intro i hi
  simp [List.getElem?_map, List.getElem?_range hi]

/-- A concrete two-element array object used to witness C10: every
property query reports presence, the "length" property is the number 2,
and the element at index `i` is a number `3 * i - 1`. -/
def sampleArray : JSObject :=
  { HasProperty := fun _ => true
    GetProperty := fun _ => ⟨true, 2, true, "two"⟩
    GetPropertyAtIndex := fun i => ⟨true, 3 * (i : Int) - 1, i % 2 == 0, "elt"⟩ }

/-- Witness for C10 at `sampleArray` and index 1. -/
theorem vector_conversions_pointwise_witness :
    (JSArray.toVectorJSValue sampleArray)[1]? = some (sampleArray.GetPropertyAtIndex 1) ∧
    (JSArray.toVectorBool sampleArray)[1]? = some (sampleArray.GetPropertyAtIndex 1).asBool ∧
    (JSArray.toVectorString sampleArray)[1]? = some (sampleArray.GetPropertyAtIndex 1).asString ∧
    (JSArray.toVectorDouble sampleArray)[1]? = some (sampleArray.GetPropertyAtIndex 1).asNumber ∧
    (JSArray.toVectorInt32 sampleArray)[1]? =
      some (int32Cast (sampleArray.GetPropertyAtIndex 1).asNumber) ∧
    (JSArray.toVectorUInt32 sampleArray)[1]? =
      some (uint32Cast (sampleArray.GetPropertyAtIndex 1).asNumber) :=
  (vector_conversions_pointwise sampleArray).2 1 (by decide)

/-- Modelled from the spec: `JSNativeObjectValuePropertyCallback<T>`
(header not under `src/`) — a named value property with a never-null
getter and an optional setter, bound-callback identities modelled as
naturals. -/
structure JSNativeObjectValuePropertyCallback where
  name : String
  attributes : Finset Nat
  getter : Nat
  setter : Option Nat
  deriving DecidableEq

/-- Modelled from the spec: `JSNativeObjectFunctionPropertyCallback<T>`
(header not under `src/`) — a named function property with a never-null
invocable, modelled as the identity of the bound callback. -/
structure JSNativeObjectFunctionPropertyCallback where
  name : String
  attributes : Finset Nat
  invocable : Nat
  deriving DecidableEq

/-- `JSNativeObjectBuilder<T>` (`JSNativeObjectBuilder.hpp`, lines
57-834): the mutable staging object, one field per configurable item, in
the member order of the source (lines 813-833).  `JSContext` is an opaque
handle; `parent_ptr_` is modelled by the opaque `js_class_` handle of the
parent's compiled class (the only use the source makes of it);
`JSNativeObjectAttributes` values are modelled by their underlying-type
ordinals. -/
structure JSNativeObjectBuilder where
  js_context : Nat
  class_name : String
  attributes : List Nat
  parent_ptr : Option Nat
  value_property_callbacks : List JSNativeObjectValuePropertyCallback
  function_property_callbacks : List JSNativeObjectFunctionPropertyCallback
  initialize_callback : Option Nat
  finalize_callback : Option Nat
  has_property_callback : Option Nat
  get_property_callback : Option Nat
  set_property_callback : Option Nat
  delete_property_callback : Option Nat
  get_property_names_callback : Option Nat
  call_as_function_callback : Option Nat
  call_as_constructor_callback : Option Nat
  call_as_function_with_this_callback : Option Nat
  has_instance_callback : Option Nat
  convert_to_type_callback : Option Nat
  deriving DecidableEq

/-- The builder constructor `JSNativeObjectBuilder(const JSContext&)`:
every optional field starts at its default (empty name, empty sets, null
callbacks, null parent). -/
def JSNativeObjectBuilder.ofContext (js_context : Nat) : JSNativeObjectBuilder :=
  { js_context := js_context
    class_name := ""
    attributes := []
    parent_ptr := none
    value_property_callbacks := []
    function_property_callbacks := []
    initialize_callback := none
    finalize_callback := none
    has_property_callback := none
    get_property_callback := none
    set_property_callback := none
    delete_property_callback := none
    get_property_names_callback := none
    call_as_function_callback := none
    call_as_constructor_callback := none
    call_as_function_with_this_callback := none
    has_instance_callback := none
    convert_to_type_callback := none }

/-- `set_class_name` (lines 117-120): assigns the member and returns `*this`. -/
def JSNativeObjectBuilder.set_class_name (b : JSNativeObjectBuilder)
    (class_name : String) : JSNativeObjectBuilder :=
  { b with class_name := class_name }

/-- `set_attributes` (lines 143-146). -/
def JSNativeObjectBuilder.set_attributes (b : JSNativeObjectBuilder)
    (attributes : List Nat) : JSNativeObjectBuilder :=
  { b with attributes := attributes }

/-- `set_parent_ptr` (lines 169-172). -/
def JSNativeObjectBuilder.set_parent_ptr (b : JSNativeObjectBuilder)
    (parent_ptr : Option Nat) : JSNativeObjectBuilder :=
  { b with parent_ptr := parent_ptr }

/-- `set_value_property_callbacks` (lines 197-200): replaces the whole set. -/
def JSNativeObjectBuilder.set_value_property_callbacks (b : JSNativeObjectBuilder)
    (value_property_callbacks : List JSNativeObjectValuePropertyCallback) :
    JSNativeObjectBuilder :=
  { b with value_property_callbacks := value_property_callbacks }

/-- `set_function_property_callbacks` (lines 225-228): replaces the whole set. -/
def JSNativeObjectBuilder.set_function_property_callbacks (b : JSNativeObjectBuilder)
    (function_property_callbacks : List JSNativeObjectFunctionPropertyCallback) :
    JSNativeObjectBuilder :=
  { b with function_property_callbacks := function_property_callbacks }

/-- `set_initialize_callback` (lines 274-277). -/
def JSNativeObjectBuilder.set_initialize_callback (b : JSNativeObjectBuilder)
    (cb : Option Nat) : JSNativeObjectBuilder :=
  { b with initialize_callback := cb }

/-- `set_finalize_callback` (lines 329-332). -/
def JSNativeObjectBuilder.set_finalize_callback (b : JSNativeObjectBuilder)
    (cb : Option Nat) : JSNativeObjectBuilder :=
  { b with finalize_callback := cb }

/-- `set_has_property_callback` (lines 378-381). -/
def JSNativeObjectBuilder.set_has_property_callback (b : JSNativeObjectBuilder)
    (cb : Option Nat) : JSNativeObjectBuilder :=
  { b with has_property_callback := cb }

/-- `set_get_property_callback` (lines 420-423). -/
def JSNativeObjectBuilder.set_get_property_callback (b : JSNativeObjectBuilder)
    (cb : Option Nat) : JSNativeObjectBuilder :=
  { b with get_property_callback := cb }

/-- `set_set_property_callback` (lines 462-465). -/
def JSNativeObjectBuilder.set_set_property_callback (b : JSNativeObjectBuilder)
    (cb : Option Nat) : JSNativeObjectBuilder :=
  { b with set_property_callback := cb }

/-- `set_delete_property_callback` (lines 504-507). -/
def JSNativeObjectBuilder.set_delete_property_callback (b : JSNativeObjectBuilder)
    (cb : Option Nat) : JSNativeObjectBuilder :=
  { b with delete_property_callback := cb }

/-- `set_get_property_names_callback` (lines 553-556). -/
def JSNativeObjectBuilder.set_get_property_names_callback (b : JSNativeObjectBuilder)
    (cb : Option Nat) : JSNativeObjectBuilder :=
  { b with get_property_names_callback := cb }

/-- `set_call_as_function_callback` (lines 593-596). -/
def JSNativeObjectBuilder.set_call_as_function_callback (b : JSNativeObjectBuilder)
    (cb : Option Nat) : JSNativeObjectBuilder :=
  { b with call_as_function_callback := cb }

/-- `set_call_as_function_with_this_callback` (lines 644-647). -/
def JSNativeObjectBuilder.set_call_as_function_with_this_callback
    (b : JSNativeObjectBuilder) (cb : Option Nat) : JSNativeObjectBuilder :=
  { b with call_as_function_with_this_callback := cb }

/-- `set_call_as_constructor_callback` (lines 693-696). -/
def JSNativeObjectBuilder.set_call_as_constructor_callback (b : JSNativeObjectBuilder)
    (cb : Option Nat) : JSNativeObjectBuilder :=
  { b with call_as_constructor_callback := cb }

/-- `set_has_instance_callback` (lines 742-745). -/
def JSNativeObjectBuilder.set_has_instance_callback (b : JSNativeObjectBuilder)
    (cb : Option Nat) : JSNativeObjectBuilder :=
  { b with has_instance_callback := cb }

/-- `set_convert_to_type_callback` (lines 787-790). -/
def JSNativeObjectBuilder.set_convert_to_type_callback (b : JSNativeObjectBuilder)
    (cb : Option Nat) : JSNativeObjectBuilder :=
  { b with convert_to_type_callback := cb }

/-- `JSNativeObjectDefinition<T>`: the immutable snapshot, fields as
listed in the constructor's initializer list (`JSNativeObjectBuilder.hpp`,
lines 836-856). -/
structure JSNativeObjectDefinition where
  class_name : String
  class_name_for_js_class_definition : String
  attributes : List Nat
  parent_ptr : Option Nat
  value_property_callbacks : List JSNativeObjectValuePropertyCallback
  function_property_callbacks : List JSNativeObjectFunctionPropertyCallback
  initialize_callback : Option Nat
  finalize_callback : Option Nat
  has_property_callback : Option Nat
  get_property_callback : Option Nat
  set_property_callback : Option Nat
  delete_property_callback : Option Nat
  get_property_names_callback : Option Nat
  call_as_function_with_this_callback : Option Nat
  call_as_function_callback : Option Nat
  call_as_constructor_callback : Option Nat
  has_instance_callback : Option Nat
  convert_to_type_callback : Option Nat
  deriving DecidableEq

/-- `JSNativeObjectDefinition<T>::JSNativeObjectDefinition(const
JSNativeObjectBuilder<T>&)` (lines 836-856): a field-by-field copy of the
builder snapshot; `class_name_for_js_class_definition_` is initialized
from `class_name_`. -/
def JSNativeObjectDefinition.ofBuilder (builder : JSNativeObjectBuilder) :
    JSNativeObjectDefinition :=
  { class_name := builder.class_name
    class_name_for_js_class_definition := builder.class_name
    attributes := builder.attributes
    parent_ptr := builder.parent_ptr
    value_property_callbacks := builder.value_property_callbacks
    function_property_callbacks := builder.function_property_callbacks
    initialize_callback := builder.initialize_callback
    finalize_callback := builder.finalize_callback
    has_property_callback := builder.has_property_callback
    get_property_callback := builder.get_property_callback
    set_property_callback := builder.set_property_callback
    delete_property_callback := builder.delete_property_callback
    get_property_names_callback := builder.get_property_names_callback
    call_as_function_with_this_callback := builder.call_as_function_with_this_callback
    call_as_function_callback := builder.call_as_function_callback
    call_as_constructor_callback := builder.call_as_constructor_callback
    has_instance_callback := builder.has_instance_callback
    convert_to_type_callback := builder.convert_to_type_callback }

/-- The JavaScriptCore C API `JSClassDefinition` record, restricted to the
fields the source touches.  `staticValues`/`staticFunctions` are the
engine-level registration tables of property trampolines, modelled by the
registered property names; `initialize_installed` records whether the
`JSObjectInitializeCallback` trampoline was installed.  The record starts
from `kJSClassDefinitionEmpty` (mask 0, empty name, no parent, empty
tables, no trampoline). -/
structure JSClassDefinition where
  attributes : Nat
  className : String
  parentClass : Option Nat
  staticValues : List String
  staticFunctions : List String
  initialize_installed : Bool
  deriving DecidableEq

/-- The attribute loop of `JSNativeObject<T>::JSNativeObject` (lines
865-870): a `std::bitset<2>` accumulates one bit per attribute at the
attribute's underlying-type ordinal; `std::bitset::set` throws
`std::out_of_range` for a position outside the bitset (ordinal ≥ 2). -/
def bitsetSetAll (acc : Nat) : List Nat → Except HALError Nat
  | [] => .ok acc
  | a :: rest =>
    if a < 2 then bitsetSetAll (acc ||| 2 ^ a) rest
    else .error (.outOfRange "bitset::set: position out of range")

/-- `JSNativeObject<T>`: the compiled class — the context handle, the
owned definition snapshot, and the engine-facing `JSClassDefinition`
record (handed to the external `JSClass` constructor, which is an opaque
collaborator). -/
structure JSNativeObject where
  js_context : Nat
  js_native_object_definition : JSNativeObjectDefinition
  js_class_definition : JSClassDefinition
  deriving DecidableEq

/-- `JSNativeObject<T>::JSNativeObject(const JSNativeObjectBuilder<T>&)`
(`JSNativeObjectBuilder.hpp`, lines 858-888): snapshots the definition,
folds the attribute set into the 2-bit bitset (mask = `to_ulong`), binds
the class name, links the parent's compiled class when present, and
installs the `JSObjectInitializeCallback` trampoline when an initialize
callback exists.  The registration loop over
`value_property_callbacks_` has an empty body (marked `// TODO` in the
source) and `function_property_callbacks_` is never iterated, so the
`staticValues`/`staticFunctions` tables keep their
`kJSClassDefinitionEmpty` value. -/
def JSNativeObject.ofBuilder (builder : JSNativeObjectBuilder) :
    Except HALError JSNativeObject :=
  let d := JSNativeObjectDefinition.ofBuilder builder
  match bitsetSetAll 0 d.attributes with
  | .error e => .error e
  | .ok mask =>
    .ok { js_context := builder.js_context
          js_native_object_definition := d
          js_class_definition :=
            { attributes := mask
              className := d.class_name_for_js_class_definition
              parentClass := d.parent_ptr
              staticValues := []
              staticFunctions := []
              initialize_installed := d.initialize_callback.isSome } }

/-- `JSNativeObjectBuilder<T>::build()` (lines 801-804): `return
JSClass2(*this);` with the only validation being the comment `// TODO
validate js_class_definition.`; the compiled-class constructor present in
the source is `JSNativeObject<T>::JSNativeObject(const
JSNativeObjectBuilder<T>&)`, modelled by `JSNativeObject.ofBuilder`. -/
def JSNativeObjectBuilder.build (b : JSNativeObjectBuilder) :
    Except HALError JSNativeObject :=
  JSNativeObject.ofBuilder b

/-- A call to `build()` together with the builder state after the call.
`build()` is a `const` member, and the definition and compiled-class
constructors take the builder by `const` reference and only read its
fields, so the post-call state is the pre-call state, made explicit here
by state passing. -/
def JSNativeObjectBuilder.buildCall (b : JSNativeObjectBuilder) :
    Except HALError JSNativeObject × JSNativeObjectBuilder :=
  (b.build, b)

/-- Unfolding equation for `build`: the compiled object is determined by
the bitset fold over the builder's attribute list and the builder's
fields. -/
theorem build_unfold (b : JSNativeObjectBuilder) :
    b.build =
      match bitsetSetAll 0 b.attributes with
      | .error e => .error e
      | .ok mask =>
        .ok { js_context := b.js_context
              js_native_object_definition := JSNativeObjectDefinition.ofBuilder b
              js_class_definition :=
                { attributes := mask
                  className := b.class_name
                  parentClass := b.parent_ptr
                  staticValues := []
                  staticFunctions := []
                  initialize_installed := b.initialize_callback.isSome } } := rfl

/-- When every attribute ordinal is below the bitset width, the attribute
loop succeeds and produces the bitwise OR of `2 ^ ordinal` over the list. -/
theorem bitsetSetAll_ok (attrs : List Nat) (h : ∀ a ∈ attrs, a < 2) :
    ∀ acc, bitsetSetAll acc attrs =
      .ok (attrs.foldl (fun m a => m ||| 2 ^ a) acc) := by
  induction attrs with
  | nil => intro acc; rfl
  | cons a rest ih =>
    intro acc
    have ha : a < 2 := h a (by simp)
    simp [bitsetSetAll, ha, ih (fun x hx => h x (by simp [hx]))]

/-- When some attribute ordinal reaches the bitset width, the attribute
loop fails with `std::out_of_range`. -/
theorem bitsetSetAll_error (attrs : List Nat) (h : ∃ a ∈ attrs, 2 ≤ a) :
    ∀ acc, bitsetSetAll acc attrs =
      .error (.outOfRange "bitset::set: position out of range") := by
  induction attrs with
  | nil => obtain ⟨a, ha, _⟩ := h; cases ha
  | cons a rest ih =>
    intro acc
    obtain ⟨x, hx, hx2⟩ := h
    rcases List.mem_cons.mp hx with rfl | hxr
    · have hnot : ¬ x < 2 := by omega
      simp [bitsetSetAll, hnot]
    · by_cases ha : a < 2
      · simp [bitsetSetAll, ha, ih ⟨x, hxr, hx2⟩]
      · simp [bitsetSetAll, ha]

/-- C3 (amended): the compiled class's attribute bitmask equals the
bitwise OR over the definition's attribute set of `2 ^ ordinal` for each
attribute; for an attribute ordinal outside the known range (the 2-bit
bitset), compilation fails with a range error — `std::out_of_range`
thrown by `std::bitset::set` — not with `InvalidArgument`. -/
theorem attribute_bitmask_or_and_range_error (b : JSNativeObjectBuilder) :
    ((∀ a ∈ b.attributes, a < 2) →
      ∃ c, b.build = .ok c ∧
        c.js_class_definition.attributes =
          b.attributes.foldl (fun m a => m ||| 2 ^ a) 0) ∧
    ((∃ a ∈ b.attributes, 2 ≤ a) →
      b.build = .error (.outOfRange "bitset::set: position out of range")) := by
  constructor
  · intro h
    have hb : b.build =
        .ok { js_context := b.js_context
              js_native_object_definition := JSNativeObjectDefinition.ofBuilder b
              js_class_definition :=
                { attributes := b.attributes.foldl (fun m a => m ||| 2 ^ a) 0
                  className := b.class_name
                  parentClass := b.parent_ptr
                  staticValues := []
                  staticFunctions := []
                  initialize_installed := b.initialize_callback.isSome } } := by
      rw [build_unfold, bitsetSetAll_ok b.attributes h 0]
    exact ⟨_, hb, rfl⟩
  · intro h
    rw [build_unfold, bitsetSetAll_error b.attributes h 0]

/-- A builder whose attribute set holds the ordinal 2, one past the 2-bit
bitset of the source. -/
def outOfRangeAttrBuilder : JSNativeObjectBuilder :=
  (JSNativeObjectBuilder.ofContext 0).set_attributes [2]

/-- A builder whose attribute set holds the two in-range ordinals. -/
def twoBitAttrBuilder : JSNativeObjectBuilder :=
  (JSNativeObjectBuilder.ofContext 0).set_attributes [0, 1]

/-- C3 counterexample: for the attribute ordinal 2 — outside the known
range — compilation fails with `std::out_of_range` (from
`std::bitset<2>::set`), not with `InvalidArgument` as the claim states. -/
theorem attribute_out_of_range_not_invalid_argument :
    outOfRangeAttrBuilder.build =
      .error (.outOfRange "bitset::set: position out of range") ∧
    exceptIsInvalidArgument outOfRangeAttrBuilder.build = false ∧
    exceptIsOk outOfRangeAttrBuilder.build = false :=
  ⟨rfl, rfl, rfl⟩

/-- Witness for C3 (amended) at the attribute lists `[0, 1]` (in range,
mask 3) and `[2]` (out of range). -/
theorem attribute_bitmask_or_and_range_error_witness :
    (∃ c, twoBitAttrBuilder.build = .ok c ∧
      c.js_class_definition.attributes =
        twoBitAttrBuilder.attributes.foldl (fun m a => m ||| 2 ^ a) 0) ∧
    outOfRangeAttrBuilder.build =
      .error (.outOfRange "bitset::set: position out of range") :=
  ⟨(attribute_bitmask_or_and_range_error twoBitAttrBuilder).1 (by decide),
   (attribute_bitmask_or_and_range_error outOfRangeAttrBuilder).2 (by decide)⟩

/-- C4: compiling twice from equal builder snapshots (same class name,
same attribute set and same property-callback sets — `unordered_set`
contents compared up to permutation of the modelled lists) yields classes
with identical attribute bitmasks, identical property name sets (both the
name multisets held by the stored definition and the engine-level
registration tables). -/
theorem build_deterministic (b₁ b₂ : JSNativeObjectBuilder)
    (hname : b₁.class_name = b₂.class_name)
    (hattrs : b₁.attributes.Perm b₂.attributes)
    (hval : b₁.value_property_callbacks.Perm b₂.value_property_callbacks)
    (hfn : b₁.function_property_callbacks.Perm b₂.function_property_callbacks) :
    b₁.build.map (fun c => c.js_class_definition.attributes) =
      b₂.build.map (fun c => c.js_class_definition.attributes) ∧
    b₁.build.map (fun c => c.js_class_definition.className) =
      b₂.build.map (fun c => c.js_class_definition.className) ∧
    b₁.build.map (fun c =>
        ((c.js_native_object_definition.value_property_callbacks.map
            JSNativeObjectValuePropertyCallback.name : Multiset String),
         (c.js_native_object_definition.function_property_callbacks.map
            JSNativeObjectFunctionPropertyCallback.name : Multiset String))) =
      b₂.build.map (fun c =>
        ((c.js_native_object_definition.value_property_callbacks.map
            JSNativeObjectValuePropertyCallback.name : Multiset String),
         (c.js_native_object_definition.function_property_callbacks.map
            JSNativeObjectFunctionPropertyCallback.name : Multiset String))) ∧
    b₁.build.map (fun c =>
        (c.js_class_definition.staticValues, c.js_class_definition.staticFunctions)) =
      b₂.build.map (fun c =>
        (c.js_class_definition.staticValues, c.js_class_definition.staticFunctions)) := by
  have hmem : ∀ a, a ∈ b₁.attributes ↔ a ∈ b₂.attributes := fun a => hattrs.mem_iff
  by_cases hall : ∀ a ∈ b₁.attributes, a < 2
  · have hall₂ : ∀ a ∈ b₂.attributes, a < 2 := fun a ha => hall a ((hmem a).mpr ha)
    rw [build_unfold b₁, build_unfold b₂, bitsetSetAll_ok b₁.attributes hall 0,
      bitsetSetAll_ok b₂.attributes hall₂ 0]
    refine ⟨?_, ?_, ?_, ?_⟩
    · simp only [Except.map, JSNativeObjectDefinition.ofBuilder, Except.ok.injEq]
      exact hattrs.foldl_eq'
        (fun x _ y _ z => by
          rw [Nat.lor_assoc, Nat.lor_assoc, Nat.lor_comm (2 ^ x) (2 ^ y)]) 0
    · simp only [Except.map, JSNativeObjectDefinition.ofBuilder, Except.ok.injEq]
      exact hname
    · simp only [Except.map, JSNativeObjectDefinition.ofBuilder, Except.ok.injEq,
        Prod.mk.injEq]
      exact ⟨Multiset.coe_eq_coe.mpr (hval.map _), Multiset.coe_eq_coe.mpr (hfn.map _)⟩
    · simp [Except.map]
  · have h₁ : ∃ x ∈ b₁.attributes, 2 ≤ x := by
      push_neg at hall
      obtain ⟨a, ha, ha2⟩ := hall
      exact ⟨a, ha, ha2⟩
    obtain ⟨a, ha, ha2⟩ := h₁
    have h₂ : ∃ x ∈ b₂.attributes, 2 ≤ x := ⟨a, (hmem a).mp ha, ha2⟩
    rw [build_unfold b₁, build_unfold b₂, bitsetSetAll_error b₁.attributes ⟨a, ha, ha2⟩ 0,
      bitsetSetAll_error b₂.attributes h₂ 0]
    exact ⟨rfl, rfl, rfl, rfl⟩

/-- One of two equal-snapshot builders used to witness C4 (attribute list
and value-property list given in one order). -/
def detBuilderA : JSNativeObjectBuilder :=
  (((JSNativeObjectBuilder.ofContext 3).set_class_name "Point").set_attributes
      [1, 0]).set_value_property_callbacks
      [⟨"x", ∅, 10, some 11⟩, ⟨"y", ∅, 12, none⟩]
    |>.set_function_property_callbacks [⟨"norm", ∅, 13⟩]

/-- The other equal-snapshot builder for C4 (same sets, other order). -/
def detBuilderB : JSNativeObjectBuilder :=
  (((JSNativeObjectBuilder.ofContext 3).set_class_name "Point").set_attributes
      [0, 1]).set_value_property_callbacks
      [⟨"y", ∅, 12, none⟩, ⟨"x", ∅, 10, some 11⟩]
    |>.set_function_property_callbacks [⟨"norm", ∅, 13⟩]

/-- Witness for C4 at two concrete builders holding the same snapshot with
the attribute and value-property sets enumerated in different orders. -/
theorem build_deterministic_witness :
    detBuilderA.build.map (fun c => c.js_class_definition.attributes) =
      detBuilderB.build.map (fun c => c.js_class_definition.attributes) ∧
    detBuilderA.build.map (fun c => c.js_class_definition.className) =
      detBuilderB.build.map (fun c => c.js_class_definition.className) ∧
    detBuilderA.build.map (fun c =>
        ((c.js_native_object_definition.value_property_callbacks.map
            JSNativeObjectValuePropertyCallback.name : Multiset String),
         (c.js_native_object_definition.function_property_callbacks.map
            JSNativeObjectFunctionPropertyCallback.name : Multiset String))) =
      detBuilderB.build.map (fun c =>
        ((c.js_native_object_definition.value_property_callbacks.map
            JSNativeObjectValuePropertyCallback.name : Multiset String),
         (c.js_native_object_definition.function_property_callbacks.map
            JSNativeObjectFunctionPropertyCallback.name : Multiset String))) ∧
    detBuilderA.build.map (fun c =>
        (c.js_class_definition.staticValues, c.js_class_definition.staticFunctions)) =
      detBuilderB.build.map (fun c =>
        (c.js_class_definition.staticValues, c.js_class_definition.staticFunctions)) :=
  build_deterministic detBuilderA detBuilderB rfl (by decide) (by decide) (by decide)

/-- A builder left with its default empty class name. -/
def emptyNameBuilder : JSNativeObjectBuilder := JSNativeObjectBuilder.ofContext 0

/-- A builder whose value-property set and function-property set both hold
a callback named "x". -/
def collidingNameBuilder : JSNativeObjectBuilder :=
  (((JSNativeObjectBuilder.ofContext 0).set_class_name "Widget").set_value_property_callbacks
      [⟨"x", ∅, 1, none⟩]).set_function_property_callbacks [⟨"x", ∅, 2⟩]

/-- A builder with one value property "a" and one function property "b". -/
def twoNameBuilder : JSNativeObjectBuilder :=
  (((JSNativeObjectBuilder.ofContext 0).set_class_name "Widget").set_value_property_callbacks
      [⟨"a", ∅, 1, none⟩]).set_function_property_callbacks [⟨"b", ∅, 2⟩]

/-- C1 (code bug): `build()` carries only the comment `// TODO validate
js_class_definition.` — evaluated on the inputs the claim describes, it
succeeds (produces a compiled class, no `InvalidArgument`) for an empty
class name and for a value-property/function-property name collision, and
for two distinct property names it succeeds but the compiled class record
registers neither property (the registration tables stay empty). -/
theorem build_validation_missing :
    emptyNameBuilder.class_name = "" ∧
    exceptIsOk emptyNameBuilder.build = true ∧
    collidingNameBuilder.value_property_callbacks.map
        JSNativeObjectValuePropertyCallback.name = ["x"] ∧
    collidingNameBuilder.function_property_callbacks.map
        JSNativeObjectFunctionPropertyCallback.name = ["x"] ∧
    exceptIsOk collidingNameBuilder.build = true ∧
    exceptIsOk twoNameBuilder.build = true ∧
    twoNameBuilder.build.map (fun c =>
        (c.js_class_definition.staticValues, c.js_class_definition.staticFunctions)) =
      .ok ([], []) :=
  ⟨rfl, rfl, rfl, rfl, rfl, rfl, rfl⟩

/-- A builder with a single value property "count" whose getter identity
is 42. -/
def countBuilder : JSNativeObjectBuilder :=
  ((JSNativeObjectBuilder.ofContext 0).set_class_name "Counter").set_value_property_callbacks
    [⟨"count", ∅, 42, none⟩]

/-- C2 (code bug): compiling a definition with one value property "count"
succeeds, but the body of the source's registration loop over the
value-property callbacks is empty (`// TODO`) and the function-property
callbacks are never iterated, so no engine-level trampoline is registered:
both registration tables of the compiled class record are empty and not
even the initialize trampoline is installed here, although the definition
snapshot still holds the callback. -/
theorem build_registers_no_trampolines :
    exceptIsOk countBuilder.build = true ∧
    countBuilder.build.map (fun c => c.js_class_definition.staticValues) = .ok [] ∧
    countBuilder.build.map (fun c => c.js_class_definition.staticFunctions) = .ok [] ∧
    countBuilder.build.map (fun c =>
        c.js_native_object_definition.value_property_callbacks.map
          JSNativeObjectValuePropertyCallback.name) = .ok ["count"] ∧
    countBuilder.build.map (fun c => c.js_class_definition.initialize_installed) =
      .ok false :=
  ⟨rfl, rfl, rfl, rfl, rfl⟩

/-- C7: every embedded builder setter overwrites exactly the field it sets
(shown in full for the two setters the claim cites: all seventeen other
fields are untouched), setting twice keeps only the last write, and
`set_value_property_callbacks` replaces the entire previous set — its
result does not depend on the set previously held.  The fluent
`return *this` is modelled by each setter returning the updated builder,
on which further setters chain.  (The source's `set_js_context` references
an undeclared identifier and is ill-formed C++, so it is not embedded.) -/
theorem builder_setters_overwrite_and_chain
    (b : JSNativeObjectBuilder) (n n' : String) (ats : List Nat) (p : Option Nat)
    (vs vs' : List JSNativeObjectValuePropertyCallback)
    (fs fs' : List JSNativeObjectFunctionPropertyCallback) (cb : Option Nat) :
    ((b.set_class_name n).class_name = n ∧
     (b.set_class_name n).js_context = b.js_context ∧
     (b.set_class_name n).attributes = b.attributes ∧
     (b.set_class_name n).parent_ptr = b.parent_ptr ∧
     (b.set_class_name n).value_property_callbacks = b.value_property_callbacks ∧
     (b.set_class_name n).function_property_callbacks = b.function_property_callbacks ∧
     (b.set_class_name n).initialize_callback = b.initialize_callback ∧
     (b.set_class_name n).finalize_callback = b.finalize_callback ∧
     (b.set_class_name n).has_property_callback = b.has_property_callback ∧
     (b.set_class_name n).get_property_callback = b.get_property_callback ∧
     (b.set_class_name n).set_property_callback = b.set_property_callback ∧
     (b.set_class_name n).delete_property_callback = b.delete_property_callback ∧
     (b.set_class_name n).get_property_names_callback = b.get_property_names_callback ∧
     (b.set_class_name n).call_as_function_callback = b.call_as_function_callback ∧
     (b.set_class_name n).call_as_constructor_callback = b.call_as_constructor_callback ∧
     (b.set_class_name n).call_as_function_with_this_callback =
       b.call_as_function_with_this_callback ∧
     (b.set_class_name n).has_instance_callback = b.has_instance_callback ∧
     (b.set_class_name n).convert_to_type_callback = b.convert_to_type_callback ∧
     (b.set_class_name n).set_class_name n' = b.set_class_name n') ∧
    ((b.set_value_property_callbacks vs).value_property_callbacks = vs ∧
     (b.set_value_property_callbacks vs).js_context = b.js_context ∧
     (b.set_value_property_callbacks vs).class_name = b.class_name ∧
     (b.set_value_property_callbacks vs).attributes = b.attributes ∧
     (b.set_value_property_callbacks vs).parent_ptr = b.parent_ptr ∧
     (b.set_value_property_callbacks vs).function_property_callbacks =
       b.function_property_callbacks ∧
     (b.set_value_property_callbacks vs).initialize_callback = b.initialize_callback ∧
     (b.set_value_property_callbacks vs).finalize_callback = b.finalize_callback ∧
     (b.set_value_property_callbacks vs).has_property_callback = b.has_property_callback ∧
     (b.set_value_property_callbacks vs).get_property_callback = b.get_property_callback ∧
     (b.set_value_property_callbacks vs).set_property_callback = b.set_property_callback ∧
     (b.set_value_property_callbacks vs).delete_property_callback =
       b.delete_property_callback ∧
     (b.set_value_property_callbacks vs).get_property_names_callback =
       b.get_property_names_callback ∧
     (b.set_value_property_callbacks vs).call_as_function_callback =
       b.call_as_function_callback ∧
     (b.set_value_property_callbacks vs).call_as_constructor_callback =
       b.call_as_constructor_callback ∧
     (b.set_value_property_callbacks vs).call_as_function_with_this_callback =
       b.call_as_function_with_this_callback ∧
     (b.set_value_property_callbacks vs).has_instance_callback = b.has_instance_callback ∧
     (b.set_value_property_callbacks vs).convert_to_type_callback =
       b.convert_to_type_callback ∧
     (b.set_value_property_callbacks vs).set_value_property_callbacks vs' =
       b.set_value_property_callbacks vs') ∧
    ((b.set_attributes ats).attributes = ats ∧
     (b.set_parent_ptr p).parent_ptr = p ∧
     (b.set_function_property_callbacks fs).function_property_callbacks = fs ∧
     (b.set_function_property_callbacks fs).set_function_property_callbacks fs' =
       b.set_function_property_callbacks fs' ∧
     (b.set_initialize_callback cb).initialize_callback = cb ∧
     (b.set_finalize_callback cb).finalize_callback = cb ∧
     (b.set_has_property_callback cb).has_property_callback = cb ∧
     (b.set_get_property_callback cb).get_property_callback = cb ∧
     (b.set_set_property_callback cb).set_property_callback = cb ∧
     (b.set_delete_property_callback cb).delete_property_callback = cb ∧
     (b.set_get_property_names_callback cb).get_property_names_callback = cb ∧
     (b.set_call_as_function_callback cb).call_as_function_callback = cb ∧
     (b.set_call_as_constructor_callback cb).call_as_constructor_callback = cb ∧
     (b.set_call_as_function_with_this_callback cb).call_as_function_with_this_callback =
       cb ∧
     (b.set_has_instance_callback cb).has_instance_callback = cb ∧
     (b.set_convert_to_type_callback cb).convert_to_type_callback = cb) := by
  repeat' apply And.intro
  all_goals rfl

/-- C8: `build()` leaves every field of the builder unchanged (the entire
post-call builder state equals the pre-call state), a second `build()`
call on the returned builder yields the same independent compiled-class
value and again leaves the builder intact, and the builder remains usable
for further configuration followed by `build()`. -/
theorem build_preserves_builder (b : JSNativeObjectBuilder) (n : String) :
    b.buildCall.2 = b ∧
    b.buildCall.2.buildCall.1 = b.buildCall.1 ∧
    b.buildCall.2.buildCall.2 = b ∧
    (b.buildCall.2.set_class_name n).build = (b.set_class_name n).build :=
  ⟨rfl, rfl, rfl, rfl⟩
